import Mathlib

/-!
Shallow embedding of the EventSub subscription lifecycle manager, the
channel-settings cache and the command-usage batcher of the twitchBot
repository (`src/core/eventsub_manager.py`, `src/core/bot.py`,
`src/core/database.py`), together with theorems settling the frozen claims
about that code.

Conventions of the embedding:
* Python exceptions are modelled with `Except String` / `Option String`;
  an exception value carries the Python `str(e)` text, on which the source
  classifies errors by substring tests.
* Network effects (platform subscription requests, database queries) are
  oracles: functions from the request to its outcome, fixed for one pass.
* `time.time()` values are modelled as rationals.
-/

namespace TwitchBot

/-- Python `sub in s` on lists of characters: `isPre` is `s.startswith(p)`. -/
def isPre : List Char → List Char → Bool
  | [], _ => true
  | _ :: _, [] => false
  | a :: s, b :: t => a == b && isPre s t

/-- Substring occurrence test on lists of characters. -/
def subIn (needle : List Char) : List Char → Bool
  | [] => needle.isEmpty
  | c :: rest => isPre needle (c :: rest) || subIn needle rest

/-- Python `needle in hay` for strings. -/
def strIn (needle hay : String) : Bool := subIn needle.data hay.data

/-- Python `s.lower()` (ASCII case folding, as used by the source). -/
def strLower (s : String) : String := ⟨s.data.map Char.toLower⟩

/-- Python `p.startswith(q)` for strings. -/
def strStarts (p s : String) : Bool := isPre p.data s.data

/-- Helper for `pySplit`: accumulate the current word (reversed) while
scanning. -/
def splitWsAux : List Char → List Char → List (List Char)
  | [], acc => if acc.isEmpty then [] else [acc.reverse]
  | c :: rest, acc =>
    if c.isWhitespace then
      if acc.isEmpty then splitWsAux rest []
      else acc.reverse :: splitWsAux rest []
    else splitWsAux rest (c :: acc)

/-- Python `s.split()`: split on whitespace, dropping empty pieces. -/
def pySplit (s : String) : List String :=
  (splitWsAux s.data []).map (fun l => ⟨l⟩)

/-- Python `s.strip()`. -/
def pyStrip (s : String) : String :=
  ⟨((s.data.dropWhile Char.isWhitespace).reverse.dropWhile Char.isWhitespace).reverse⟩

/-- The EventSub subscription kinds issued by `eventsub_manager.py`. -/
inductive SubKind where
  | chat
  | streamOnline
  | raid
  | follow
  | subscribe
  | gift
  | points
deriving DecidableEq, BEq

/-- A subscription attempt: which kind, for which broadcaster id.  The
attempt lists collected below record every `subscribe_websocket` call. -/
abbrev Att := SubKind × String

/-- One row of `get_active_channels` / `get_channels_with_tokens`. -/
structure Channel where
  channel_id : String
  channel_name : String
deriving DecidableEq

/-- The platform client: maps a subscription request to `none` (success)
or `some e` (the text of the raised exception), fixed for one pass. -/
abbrev SubOracle := SubKind → String → Option String

/-- The quota test of `subscribe_all_events` line 82:
`"429" in str(e) or "cost exceeded" in str(e).lower()`. -/
def isQuotaSignal (e : String) : Bool :=
  strIn "429" e || strIn "cost exceeded" (strLower e)

/-- The chat-only loop of `subscribe_all_events` (lines 77-90): for each
channel without a credential, sequentially attempt the chat subscription;
on a quota signal break out of the loop, on any other error continue.
Returns the list of channels for which an attempt was actually made, in
order. -/
def subscribe_chat_only_loop (oracle : SubOracle) : List Channel → List Channel
  | [] => []
  | ch :: rest =>
    match oracle .chat ch.channel_id with
    | none => ch :: subscribe_chat_only_loop oracle rest
    | some e =>
      if isQuotaSignal e then [ch]
      else ch :: subscribe_chat_only_loop oracle rest

/-- Embedding of `EventSubManager._handle_subscription_error` (lines 266-299): classify
the exception text; only the quota branch flips the returned
`cost_limit_reached` flag to `true`, every other branch (missing scope,
websocket-session, already-exists, other) returns the flag it was given. -/
def handle_subscription_error (e : String) (cost_limit_reached : Bool) : Bool :=
  let es := strLower e
  if strIn "403" es || strIn "authorization" es then cost_limit_reached
  else if strIn "429" es || strIn "cost exceeded" es then true
  else if strIn "websocket transport session" es || strIn "already disconnected" es then
    cost_limit_reached
  else if strIn "already exists" es then cost_limit_reached
  else cost_limit_reached

/-- The missing-authorization-scope test, i.e. the first branch of
`_handle_subscription_error`. -/
def is_scope_error (e : String) : Bool :=
  strIn "403" (strLower e) || strIn "authorization" (strLower e)

/-- The advanced kinds attempted per channel, in source order
(`_subscribe_advanced_events` lines 174-259): follow, subscribe, gift,
then channel-points redemption when the installed twitchio module exposes
a redemption subscription class (`points_available`). -/
def adv_kinds (points_available : Bool) : List SubKind :=
  [.follow, .subscribe, .gift] ++ if points_available then [.points] else []

/-- One advanced-kind attempt inside the per-channel block: skipped entirely
when `cost_limit_reached` is already set (the `if cost_limit_reached:
continue` guards); otherwise the request is issued and, on an exception,
the flag is recomputed by `_handle_subscription_error`. -/
def adv_kind_step (oracle : SubOracle) (cid : String)
    (acc : Bool × List Att) (k : SubKind) : Bool × List Att :=
  if acc.1 then acc
  else
    match oracle k cid with
    | none => (false, acc.2 ++ [(k, cid)])
    | some e => (handle_subscription_error e false, acc.2 ++ [(k, cid)])

/-- The advanced-event block for one channel (entered with
`cost_limit_reached = false`, as guaranteed by the loop-top `continue`):
returns the flag after the block and the attempts made for this channel. -/
def subscribe_advanced_channel (oracle : SubOracle) (points_available : Bool)
    (ch : Channel) : Bool × List Att :=
  (adv_kinds points_available).foldl (adv_kind_step oracle ch.channel_id) (false, [])

/-- The channel loop of `_subscribe_advanced_events` (lines 163-264): once
`cost_limit_reached` is set, every remaining channel is skipped (`continue`
with a warning); otherwise the block of that channel runs and may set the flag. -/
def subscribe_advanced_go (oracle : SubOracle) (points_available : Bool)
    (flag : Bool) : List Channel → List Att
  | [] => []
  | ch :: rest =>
    if flag then subscribe_advanced_go oracle points_available flag rest
    else
      let r := subscribe_advanced_channel oracle points_available ch
      r.2 ++ subscribe_advanced_go oracle points_available r.1 rest

/-- Embedding of `EventSubManager._subscribe_advanced_events`: attempts made across the
whole channel list, starting with `cost_limit_reached = False`. -/
def subscribe_advanced_events (oracle : SubOracle) (points_available : Bool)
    (channels : List Channel) : List Att :=
  subscribe_advanced_go oracle points_available false channels

/-- Embedding of `EventSubManager._subscribe_basic_events` under the `_safe` wrapper
(lines 109-146): chat, stream-online, raid in order; the first exception
aborts the remaining requests for that channel (caught by the wrapper).
Returns the attempts actually issued for this channel. -/
def subscribe_basic_events_attempts (oracle : SubOracle) (ch : Channel) : List Att :=
  match oracle .chat ch.channel_id with
  | some _ => [(.chat, ch.channel_id)]
  | none =>
    match oracle .streamOnline ch.channel_id with
    | some _ => [(.chat, ch.channel_id), (.streamOnline, ch.channel_id)]
    | none =>
      match oracle .raid ch.channel_id with
      | some _ =>
        [(.chat, ch.channel_id), (.streamOnline, ch.channel_id), (.raid, ch.channel_id)]
      | none =>
        [(.chat, ch.channel_id), (.streamOnline, ch.channel_id), (.raid, ch.channel_id)]

/-- The environment of one reconciliation pass: the platform oracle,
whether a channel-points subscription class exists in the installed
twitchio module, and the database answers. `active_channels` models
`DatabaseManager.get_active_channels`, which raises on store failure;
`channels_with_tokens` models the query behind
`DatabaseManager.get_channels_with_tokens`, which catches its own failure
and returns `[]` (see `db_get_channels_with_tokens`). -/
structure Env where
  oracle : SubOracle
  points_available : Bool
  active_channels : Except String (List Channel)
  channels_with_tokens : Except String (List Channel)

/-- Embedding of `DatabaseManager.get_channels_with_tokens` (database.py lines
113-126): its own `try/except` absorbs a store failure into `[]`. -/
def db_get_channels_with_tokens (env : Env) : List Channel :=
  match env.channels_with_tokens with
  | .ok l => l
  | .error _ => []

/-- The unscoped portion of `subscribe_all_events` after the channel list
has been fetched and found non-empty, with `advanced_only = False`
(lines 56-94): partition by credential, gather basic events concurrently
for token channels, run the sequential chat-only loop for the rest, then
the advanced block for token channels. Returns all attempts issued. -/
def full_pass_attempts (env : Env) (channels : List Channel) : List Att :=
  let cwt := db_get_channels_with_tokens env
  let token_ids := cwt.map (fun ch => ch.channel_id)
  let without := channels.filter (fun ch => !(token_ids.contains ch.channel_id))
  let basic := (cwt.map (subscribe_basic_events_attempts env.oracle)).flatten
  let chat := (subscribe_chat_only_loop env.oracle without).map
    (fun ch => ((SubKind.chat), ch.channel_id))
  let adv := if cwt.isEmpty then []
    else subscribe_advanced_events env.oracle env.points_available cwt
  basic ++ chat ++ adv

/-- The body of `EventSubManager.subscribe_all_events` (lines 28-104),
before the outer `except` clause: `.error` is an exception escaping the
body (only the store reads of `get_active_channels` can raise here — every
subscription attempt is wrapped). Returns the attempts issued. -/
def subscribe_all_events_body (env : Env) (channel_id : Option String)
    (advanced_only : Bool) : Except String (List Att) :=
  match channel_id with
  | some cid =>
    match env.active_channels with
    | .error e => .error e
    | .ok channels =>
      match channels.find? (fun ch => ch.channel_id == cid) with
      | none => .ok []
      | some target =>
        if advanced_only then
          .ok (subscribe_advanced_events env.oracle env.points_available
            ((db_get_channels_with_tokens env).filter (fun ch => ch.channel_id == cid)))
        else .ok (full_pass_attempts env [target])
  | none =>
    match env.active_channels with
    | .error e => .error e
    | .ok channels =>
      if channels.isEmpty then .ok []
      else if advanced_only then
        .ok (subscribe_advanced_events env.oracle env.points_available
          (db_get_channels_with_tokens env))
      else .ok (full_pass_attempts env channels)

/-- Embedding of `EventSubManager.subscribe_all_events` with its outer
`try/except Exception` (lines 28-107): any escaping exception is logged
and absorbed, so the method itself returns normally. -/
def subscribe_all_events (env : Env) (channel_id : Option String)
    (advanced_only : Bool) : Except String (List Att) :=
  match subscribe_all_events_body env channel_id advanced_only with
  | .error _ => .ok []
  | .ok atts => .ok atts

/-- The debounce state of `EventSubManager.handle_websocket_reconnect`:
`_last_session_welcome`, initially `0.0`. -/
structure EventSubState where
  last_session_welcome : ℚ
deriving DecidableEq

/-- Embedding of `EventSubManager.handle_websocket_reconnect` (lines 322-339): within
10 seconds of the last handled welcome, return without reconciling;
otherwise record the time and run `subscribe_all_events(is_reconnect=True)`
(whose own failure is additionally caught).  The boolean reports whether
the reconciliation pass was invoked. -/
def handle_websocket_reconnect (st : EventSubState) (now : ℚ) :
    EventSubState × Bool :=
  if now - st.last_session_welcome < 10 then (st, false)
  else ({ last_session_welcome := now }, true)

/-- The value returned by `DatabaseManager.get_channel_settings`: the
`prefix` column and the `disabled_commands` list held in the `settings`
JSON map (bot.py reads `settings.get("settings", {}).get
("disabled_commands", [])`). -/
structure ChannelSettings where
  pfx : String
  disabled_commands : List String
deriving DecidableEq

/-- The database side of channel settings: `none` models a missing
`channel_settings` row, `.error` a failing query/connection. -/
abbrev Store := String → Except String (Option ChannelSettings)

/-- Embedding of `DatabaseManager.get_channel_settings` (database.py lines 170-190):
propagates a store failure; a missing row yields the defaults
`{"prefix": "!", "settings": {}}`. -/
def db_get_channel_settings (store : Store) (cid : String) :
    Except String ChannelSettings :=
  match store cid with
  | .error e => .error e
  | .ok none => .ok ⟨"!", []⟩
  | .ok (some row) => .ok row

/-- Embedding of `NiiBot._channel_settings_cache`, a dict from channel id to settings.
Lookup takes the first matching entry; `clear` removes every entry for the
key, so the association-list behaviour matches the Python dict. -/
abbrev Cache := List (String × ChannelSettings)

/-- Embedding of `NiiBot.get_channel_settings` (bot.py lines 187-194): return the
cached entry when present (no store read); otherwise read the store,
cache the result and return it.  The `Nat` counts store reads performed by
this call; a store failure propagates (raises) before anything is cached. -/
def get_channel_settings (store : Store) (cache : Cache) (cid : String) :
    Except String (ChannelSettings × Cache × Nat) :=
  match cache.lookup cid with
  | some s => .ok (s, cache, 0)
  | none =>
    match db_get_channel_settings store cid with
    | .error e => .error e
    | .ok s => .ok (s, (cid, s) :: cache, 1)

/-- Embedding of `NiiBot.clear_channel_settings_cache` (bot.py lines 196-201):
`pop(channel_id, None)` for one channel, `clear()` for all. -/
def clear_channel_settings_cache (cache : Cache) (channel_id : Option String) :
    Cache :=
  match channel_id with
  | some cid => cache.filter (fun p => !(p.1 == cid))
  | none => []

/-- Embedding of `NiiBot.is_command_enabled` (bot.py lines 203-213): any exception from
the settings lookup is caught and the command treated as enabled. -/
def is_command_enabled (store : Store) (cache : Cache) (cid cmd : String) :
    Bool × Cache :=
  match get_channel_settings store cache cid with
  | .error _ => (true, cache)
  | .ok (s, cache', _) => (!(s.disabled_commands.contains cmd), cache')

/-- Outcome of `NiiBot.event_message` for one inbound message. -/
inductive MsgOutcome where
  /-- The message reached `process_commands` / the handlers, dispatched
  under the given per-channel command marker string. -/
  | processed (pfx_used : String)
  /-- The command was disabled in this channel; dispatch skipped. -/
  | blockedDisabled (cmd : String)
  /-- An exception reached the outer `except` (bot.py line 322): logged as
  "Message processing error" and the message dropped. -/
  | errorLogged
deriving DecidableEq

/-- Embedding of `NiiBot.event_message` (bot.py lines 276-323) for a non-self message:
fetch the channel settings through the cache (an exception here reaches
the outer handler and drops the message), take the channel marker, and if
the message starts with it, gate on `is_command_enabled` (the Python
`split()[0]` raises `IndexError` on an empty remainder — also caught by
the outer handler).  `process_commands` and the registered handlers are
summarised by the `processed` outcome. -/
def event_message (store : Store) (cache : Cache) (cid content : String) :
    MsgOutcome × Cache :=
  match get_channel_settings store cache cid with
  | .error _ => (.errorLogged, cache)
  | .ok (cs, cache1, _) =>
    let p := cs.pfx
    let body := pyStrip content
    if strStarts p body then
      match pySplit ⟨body.data.drop p.data.length⟩ with
      | [] => (.errorLogged, cache1)
      | w :: _ =>
        let cmd := strLower w
        let r := is_command_enabled store cache1 cid cmd
        if r.1 then (.processed p, r.2) else (.blockedDisabled cmd, r.2)
    else (.processed p, cache1)

/-- One usage event: `(channel_id, user_id, command_name)`. -/
abbrev UsageEvent := String × String × String

/-- An applied usage-count update: `((channel_id, command_name), n)`
models one `UPDATE custom_commands SET usage_count = usage_count + n`. -/
abbrev UsageUpdate := (String × String) × Nat

/-- The batcher state of `DatabaseManager`: `_usage_batch` and
`_batch_timer` (`0` meaning unset). -/
structure BatchState where
  batch : List UsageEvent
  timer : ℚ
deriving DecidableEq

/-- The aggregation dict of `_flush_usage_batch` (lines 260-263): a Python
dict keyed by `(channel_id, command_name)`, insertion-ordered, counts
incremented in place. -/
def add_count (acc : List UsageUpdate) (key : String × String) : List UsageUpdate :=
  match acc with
  | [] => [(key, 1)]
  | (k, n) :: rest =>
    if k == key then (k, n + 1) :: rest else (k, n) :: add_count rest key

/-- The `usage_counts` aggregation over a batch. -/
def aggregate_counts (batch : List UsageEvent) : List UsageUpdate :=
  batch.foldl (fun acc ev => add_count acc (ev.1, ev.2.2)) []

/-- The transactional writer: the whole flush commits (`.ok`) or the
transaction raises (`.error`). -/
abbrev UsageWriter := List UsageEvent → Except String Unit

/-- Embedding of `DatabaseManager._flush_usage_batch` (lines 234-277): snapshot the
queue, clear it and zero the timer, then write transactionally.  On
success the usage-count updates are the aggregated per-(channel, command)
increments; on failure the snapshot is prepended back in front of the live
queue and nothing is raised.  `during` is the content of `_usage_batch` at
the end of the awaited write, i.e. the events recorded by other tasks
while the flush was in flight (their effect on `_batch_timer` is their
own; for the sequential runs proved below `during = []`, leaving the timer
at `0` exactly as in the source). -/
def flush_usage_batch (writer : UsageWriter) (during : List UsageEvent)
    (st : BatchState) : BatchState × List UsageUpdate :=
  if st.batch.isEmpty then (st, [])
  else
    match writer st.batch with
    | .ok _ => (⟨during, 0⟩, aggregate_counts st.batch)
    | .error _ => (⟨st.batch ++ during, 0⟩, [])

/-- Embedding of `DatabaseManager.log_command_usage` (lines 214-232): append the event,
start the timer if unset, then flush synchronously when the batch has
reached 50 events or 30 seconds have elapsed since the timer started.
Returns the new state, the usage-count updates applied, and whether a
flush ran before returning. -/
def log_command_usage (writer : UsageWriter) (now : ℚ) (st : BatchState)
    (ev : UsageEvent) : BatchState × List UsageUpdate × Bool :=
  let batch1 := st.batch ++ [ev]
  let timer1 := if st.timer = 0 then now else st.timer
  let batch_full : Bool := decide (50 ≤ batch1.length)
  let time_exceeded : Bool := decide ((30 : ℚ) ≤ now - timer1)
  if batch_full || time_exceeded then
    let r := flush_usage_batch writer [] ⟨batch1, timer1⟩
    (r.1, r.2, true)
  else (⟨batch1, timer1⟩, [], false)

/-- A sequence of `log_command_usage` calls for the same event at the
given times; the boolean reports whether any call flushed. -/
def run_records (writer : UsageWriter) (ev : UsageEvent) :
    List ℚ → BatchState → BatchState × Bool
  | [], st => (st, false)
  | t :: rest, st =>
    let r := log_command_usage writer t st ev
    let rr := run_records writer ev rest r.1
    (rr.1, r.2.2 || rr.2)

/-- Outcome of one chat-only attempt as seen by the quota test: `true`
when the attempt raised and its text is a quota signal. -/
def chat_quota_free (oracle : SubOracle) (chs : List Channel) : Bool :=
  chs.all fun ch =>
    match oracle .chat ch.channel_id with
    | none => true
    | some e => !(isQuotaSignal e)

/-- Whether one advanced attempt of the given kind sets
`cost_limit_reached` (raises with a text classified as quota exhaustion). -/
def kind_halts (oracle : SubOracle) (cid : String) (k : SubKind) : Bool :=
  match oracle k cid with
  | none => false
  | some e => handle_subscription_error e false

/-- Whether the per-channel advanced blocks of the given channels all
finish without signalling quota exhaustion. -/
def adv_halt_free (oracle : SubOracle) (points_available : Bool)
    (chs : List Channel) : Bool :=
  chs.all fun c => !(subscribe_advanced_channel oracle points_available c).1

/-- Concrete platform oracle for the C1 witness: the chat subscription
for channel id 2 raises a 429, everything else succeeds. -/
def c1Oracle : SubOracle := fun k cid =>
  if k == SubKind.chat && cid == "2" then some "429 Too Many Requests" else none

/-- Concrete platform oracle for the C2 witness: the subscribe-events
subscription for channel id 2 raises a quota error, everything else
succeeds. -/
def c2Oracle : SubOracle := fun k cid =>
  if k == SubKind.subscribe && cid == "2" then some "subscription cost exceeded" else none

/-- Concrete environment for the C10 witness: one active channel with id
7 and no credentials. -/
def c10Env : Env :=
  { oracle := fun _ _ => none
    points_available := true
    active_channels := .ok [⟨"7", "seven"⟩]
    channels_with_tokens := .ok [] }

/-- A store whose every query fails, for the failure-path witnesses. -/
def failStore : Store := fun _ => .error "connection refused"

/-- A store holding one settings row for every channel, for the cache
witnesses. -/
def okStore : Store := fun _ => .ok (some ⟨"?", ["dice"]⟩)

/-- A usage writer whose transaction always commits. -/
def okWriter : UsageWriter := fun _ => .ok ()

/-- A usage writer whose transaction always raises. -/
def failWriter : UsageWriter := fun _ => .error "insert failed"

end TwitchBot

namespace TwitchBot

/-- C1: during one full pass, chat-only subscriptions are issued one at a
time in list order; once the attempt for the k-th credential-less channel
raises a quota signal (text containing 429 or cost exceeded), the loop
breaks: every channel before k is still attempted exactly as before, the
k-th is attempted, and no later channel is attempted in this pass. -/
theorem c1_chat_only_quota_halt (oracle : SubOracle) (pre post : List Channel)
    (ck : Channel) (e : String)
    (hpre : chat_quota_free oracle pre = true)
    (herr : oracle .chat ck.channel_id = some e)
    (hq : isQuotaSignal e = true) :
    subscribe_chat_only_loop oracle (pre ++ ck :: post) = pre ++ [ck] := by
  induction pre with
  | nil =>
    simp [subscribe_chat_only_loop, herr, hq]
  | cons a as ih =>
    simp only [chat_quota_free, List.all_cons, Bool.and_eq_true] at hpre
    obtain ⟨ha, has⟩ := hpre
    have ih' := ih (by simpa [chat_quota_free] using has)
    simp only [List.cons_append, subscribe_chat_only_loop]
    cases h : oracle .chat a.channel_id with
    | none => simp [ih']
    | some e' =>
      rw [h] at ha
      have ha' : isQuotaSignal e' = false := by simpa using ha
      simp [ha', ih']

/-- Witness for C1 at a concrete three-channel list with a 429 on the
second channel. -/
theorem c1_witness :
    chat_quota_free c1Oracle [⟨"1", "alice"⟩] = true ∧
    c1Oracle .chat "2" = some "429 Too Many Requests" ∧
    isQuotaSignal "429 Too Many Requests" = true ∧
    subscribe_chat_only_loop c1Oracle
        ([⟨"1", "alice"⟩] ++ (⟨"2", "bob"⟩ : Channel) :: [⟨"3", "carol"⟩]) =
      [⟨"1", "alice"⟩] ++ [⟨"2", "bob"⟩] :=
  ⟨by decide, by decide, by decide,
    c1_chat_only_quota_halt c1Oracle [⟨"1", "alice"⟩] [⟨"3", "carol"⟩]
      ⟨"2", "bob"⟩ "429 Too Many Requests" (by decide) (by decide) (by decide)⟩

/-- C3: `subscribe_all_events` returns normally for every environment,
every scoping and every flag: all subscription-level errors are absorbed
inside the call, and even a Channel Store failure is caught by the outer
handler, so nothing propagates to the caller. -/
theorem c3_reconcile_never_raises (env : Env) (channel_id : Option String)
    (advanced_only : Bool) :
    ∃ atts, subscribe_all_events env channel_id advanced_only = .ok atts := by
  unfold subscribe_all_events
  cases subscribe_all_events_body env channel_id advanced_only <;> exact ⟨_, rfl⟩

/-- C4: two `handle_websocket_reconnect` calls, the second within the
10-second debounce window of the first, trigger exactly one
reconciliation: the first call reconciles, the second returns without
doing anything. -/
theorem c4_reconnect_debounce (st : EventSubState) (t1 t2 : ℚ)
    (h1 : 10 ≤ t1 - st.last_session_welcome) (h2 : t2 - t1 < 10) :
    (handle_websocket_reconnect st t1).2 = true ∧
    (handle_websocket_reconnect (handle_websocket_reconnect st t1).1 t2).2 = false := by
  have hn : ¬(t1 - st.last_session_welcome < 10) := not_lt.mpr h1
  constructor
  · simp [handle_websocket_reconnect, hn]
  · simp [handle_websocket_reconnect, hn, h2]

/-- Witness for C4: first welcome at t = 100 (initial state 0), second at
t = 105. -/
theorem c4_reconnect_debounce_witness :
    (10 : ℚ) ≤ 100 - (⟨0⟩ : EventSubState).last_session_welcome ∧
    (105 : ℚ) - 100 < 10 ∧
    ((handle_websocket_reconnect ⟨0⟩ 100).2 = true ∧
      (handle_websocket_reconnect (handle_websocket_reconnect ⟨0⟩ 100).1 105).2 = false) :=
  ⟨by norm_num, by norm_num, c4_reconnect_debounce ⟨0⟩ 100 105 (by norm_num) (by norm_num)⟩

/-- C9: when the settings lookup raises, `is_command_enabled` swallows the
exception and reports the command as enabled, leaving the cache alone. -/
theorem c9_enabled_default_on_error (store : Store) (cache : Cache)
    (cid cmd e : String)
    (h : get_channel_settings store cache cid = .error e) :
    is_command_enabled store cache cid cmd = (true, cache) := by
  simp [is_command_enabled, h]

/-- Witness for C9 with a store whose query fails. -/
theorem c9_witness :
    get_channel_settings failStore [] "1" = .error "connection refused" ∧
    is_command_enabled failStore [] "1" "dice" = (true, []) :=
  ⟨rfl, c9_enabled_default_on_error failStore [] "1" "dice" "connection refused" rfl⟩

/-- C10: a pass scoped to a channel id that is not in the active-channel
list returns right after the lookup: no subscription request of any kind
is issued (the attempt list is empty) and no error escapes. -/
theorem c10_scoped_missing_channel_noop (env : Env) (cid : String)
    (advanced_only : Bool) (channels : List Channel)
    (hact : env.active_channels = .ok channels)
    (hfind : channels.find? (fun ch => ch.channel_id == cid) = none) :
    subscribe_all_events env (some cid) advanced_only = .ok [] := by
  simp [subscribe_all_events, subscribe_all_events_body, hact, hfind]

/-- Witness for C10: the only active channel is id 7, the pass is scoped
to id 9. -/
theorem c10_witness :
    c10Env.active_channels = .ok [⟨"7", "seven"⟩] ∧
    ([(⟨"7", "seven"⟩ : Channel)].find? (fun ch => ch.channel_id == "9") = none) ∧
    subscribe_all_events c10Env (some "9") false = .ok [] :=
  ⟨rfl, by decide,
    c10_scoped_missing_channel_noop c10Env "9" false [⟨"7", "seven"⟩] rfl (by decide)⟩

/-- After removing every entry for a key, lookup of that key misses. -/
theorem lookup_filter_ne (cache : Cache) (cid : String) :
    (cache.filter (fun p => !(p.1 == cid))).lookup cid = none := by
  induction cache with
  | nil => rfl
  | cons a as ih =>
    by_cases h : a.1 = cid
    · simp [List.filter_cons, h, ih]
    · have hb : (a.1 == cid) = false := beq_eq_false_iff_ne.mpr h
      have hb' : (cid == a.1) = false := beq_eq_false_iff_ne.mpr (Ne.symm h)
      simp [List.filter_cons, hb, List.lookup, hb', ih]

/-- C5: the settings cache honours invalidation and laziness. After
`clear_channel_settings_cache cid`, a `get_channel_settings cid` misses
the cache and performs one fresh store read, returning the store value
(not the previously cached one) and re-caching it; a get on any missing
key reads the store once, caches the result and returns it; a get on a
cached key returns the cached entry with zero store reads. -/
theorem c5_cache_get_invalidate (store : Store) (cache : Cache)
    (cid cid2 : String) (s s2 s3 : ChannelSettings)
    (hhit : cache.lookup cid = some s)
    (hmiss : cache.lookup cid2 = none)
    (hdb : db_get_channel_settings store cid = .ok s2)
    (hdb2 : db_get_channel_settings store cid2 = .ok s3) :
    get_channel_settings store (clear_channel_settings_cache cache (some cid)) cid =
      .ok (s2, (cid, s2) :: clear_channel_settings_cache cache (some cid), 1) ∧
    get_channel_settings store cache cid2 = .ok (s3, (cid2, s3) :: cache, 1) ∧
    get_channel_settings store cache cid = .ok (s, cache, 0) := by
  refine ⟨?_, ?_, ?_⟩
  · simp [get_channel_settings, clear_channel_settings_cache, lookup_filter_ne, hdb]
  · simp [get_channel_settings, hmiss, hdb2]
  · simp [get_channel_settings, hhit]

/-- Witness for C5: the cache holds an entry for channel 1 that differs
from the store row, channel 2 is uncached. -/
theorem c5_witness :
    ([("1", ⟨"!", []⟩)] : Cache).lookup "1" = some ⟨"!", []⟩ ∧
    ([("1", ⟨"!", []⟩)] : Cache).lookup "2" = none ∧
    db_get_channel_settings okStore "1" = .ok ⟨"?", ["dice"]⟩ ∧
    (get_channel_settings okStore
        (clear_channel_settings_cache [("1", ⟨"!", []⟩)] (some "1")) "1" =
      .ok (⟨"?", ["dice"]⟩,
        ("1", ⟨"?", ["dice"]⟩) :: clear_channel_settings_cache [("1", ⟨"!", []⟩)] (some "1"),
        1)) ∧
    get_channel_settings okStore [("1", ⟨"!", []⟩)] "2" =
      .ok (⟨"?", ["dice"]⟩, ("2", ⟨"?", ["dice"]⟩) :: [("1", ⟨"!", []⟩)], 1) ∧
    get_channel_settings okStore [("1", ⟨"!", []⟩)] "1" =
      .ok (⟨"!", []⟩, [("1", ⟨"!", []⟩)], 0) := by
  have h := c5_cache_get_invalidate okStore [("1", ⟨"!", []⟩)] "1" "2"
    ⟨"!", []⟩ ⟨"?", ["dice"]⟩ ⟨"?", ["dice"]⟩ (by decide) (by decide) rfl rfl
  exact ⟨by decide, by decide, rfl, h.1, h.2.1, h.2.2⟩

/-- Counterexample to C6 as stated: with a failing store, the message is
not processed under the default marker — the exception reaches the outer
handler of `event_message`, which logs it and drops the message. -/
theorem c6_counterexample :
    event_message failStore [] "42" "!dice" = (MsgOutcome.errorLogged, []) ∧
    MsgOutcome.errorLogged ≠ MsgOutcome.processed "!" :=
  ⟨rfl, by decide⟩

/-- C6 as amended: when the store query fails during a settings-cache
get, the get propagates the failure and caches nothing (a later get with
a healthy store performs a fresh read); in `event_message` the failure is
caught by the outer handler, which logs it and drops the message — the
message is not processed under the default command marker. -/
theorem c6_amended_store_failure (store store2 : Store) (cache : Cache)
    (cid content e : String) (s : ChannelSettings)
    (hmiss : cache.lookup cid = none)
    (hfail : db_get_channel_settings store cid = .error e)
    (hok : db_get_channel_settings store2 cid = .ok s) :
    get_channel_settings store cache cid = .error e ∧
    event_message store cache cid content = (.errorLogged, cache) ∧
    get_channel_settings store2 cache cid = .ok (s, (cid, s) :: cache, 1) := by
  have hget : get_channel_settings store cache cid = .error e := by
    simp [get_channel_settings, hmiss, hfail]
  refine ⟨hget, ?_, ?_⟩
  · simp [event_message, hget]
  · simp [get_channel_settings, hmiss, hok]

/-- Witness for the amended C6 with a concrete failing store and a
concrete healthy store. -/
theorem c6_witness :
    (([] : Cache).lookup "42" = none) ∧
    db_get_channel_settings failStore "42" = .error "connection refused" ∧
    db_get_channel_settings okStore "42" = .ok ⟨"?", ["dice"]⟩ ∧
    (get_channel_settings failStore [] "42" = .error "connection refused" ∧
      event_message failStore [] "42" "!roll" = (.errorLogged, []) ∧
      get_channel_settings okStore [] "42" = .ok (⟨"?", ["dice"]⟩, [("42", ⟨"?", ["dice"]⟩)], 1)) :=
  ⟨rfl, rfl, rfl,
    c6_amended_store_failure failStore okStore [] "42" "!roll" "connection refused"
      ⟨"?", ["dice"]⟩ rfl rfl rfl⟩

/-- One advanced-kind step from an un-halted accumulator: the attempt is
issued and the flag becomes `kind_halts`. -/
theorem adv_kind_step_false (oracle : SubOracle) (cid : String)
    (atts : List Att) (k : SubKind) :
    adv_kind_step oracle cid (false, atts) k =
      (kind_halts oracle cid k, atts ++ [(k, cid)]) := by
  simp only [adv_kind_step, kind_halts]
  cases oracle k cid <;> simp

/-- Once the flag is set, the remaining kind steps do nothing. -/
theorem adv_fold_halted (oracle : SubOracle) (cid : String) :
    ∀ (ks : List SubKind) (atts : List Att),
      List.foldl (adv_kind_step oracle cid) (true, atts) ks = (true, atts) := by
  intro ks
  induction ks with
  | nil => intro atts; rfl
  | cons k ks ih => intro atts; simp [List.foldl_cons, adv_kind_step, ih]

/-- Accumulator lemma for the per-channel kind fold. -/
theorem adv_fold_acc (oracle : SubOracle) (cid : String) :
    ∀ (ks : List SubKind) (atts : List Att),
      List.foldl (adv_kind_step oracle cid) (false, atts) ks =
        ((List.foldl (adv_kind_step oracle cid) (false, []) ks).1,
          atts ++ (List.foldl (adv_kind_step oracle cid) (false, []) ks).2) := by
  intro ks
  induction ks with
  | nil => intro atts; simp
  | cons k ks ih =>
    intro atts
    rw [List.foldl_cons, List.foldl_cons, adv_kind_step_false, adv_kind_step_false]
    cases hk : kind_halts oracle cid k with
    | true => rw [adv_fold_halted, adv_fold_halted]; simp
    | false => rw [ih (atts ++ [(k, cid)]), ih ([] ++ [(k, cid)])]; simp

/-- The per-channel kind fold stops at the first quota-signalling kind:
every kind before it is attempted, it is attempted, nothing after it is. -/
theorem adv_fold_cut (oracle : SubOracle) (cid : String) (ks1 : List SubKind)
    (k : SubKind) (ks2 : List SubKind) (e : String)
    (h1 : ks1.all (fun x => !(kind_halts oracle cid x)) = true)
    (herr : oracle k cid = some e)
    (hq : handle_subscription_error e false = true) :
    List.foldl (adv_kind_step oracle cid) (false, []) (ks1 ++ k :: ks2) =
      (true, ks1.map (fun x => (x, cid)) ++ [(k, cid)]) := by
  induction ks1 with
  | nil =>
    rw [List.nil_append, List.foldl_cons, adv_kind_step_false]
    have hk : kind_halts oracle cid k = true := by simp [kind_halts, herr, hq]
    rw [hk, adv_fold_halted]
    simp
  | cons a as ih =>
    simp only [List.all_cons, Bool.and_eq_true, Bool.not_eq_true'] at h1
    obtain ⟨ha, has⟩ := h1
    rw [List.cons_append, List.foldl_cons, adv_kind_step_false, ha, adv_fold_acc,
      ih has]
    simp

/-- Once the global flag is set, no remaining channel is attempted. -/
theorem adv_go_halted (oracle : SubOracle) (pa : Bool) :
    ∀ chs, subscribe_advanced_go oracle pa true chs = [] := by
  intro chs
  induction chs with
  | nil => rfl
  | cons c cs ih => simp [subscribe_advanced_go, ih]

/-- Channels whose blocks do not signal quota pass the flag through
unchanged, contributing their full attempt lists. -/
theorem adv_go_pre (oracle : SubOracle) (pa : Bool) (pre rest : List Channel)
    (h : adv_halt_free oracle pa pre = true) :
    subscribe_advanced_go oracle pa false (pre ++ rest) =
      (pre.map fun c => (subscribe_advanced_channel oracle pa c).2).flatten ++
        subscribe_advanced_go oracle pa false rest := by
  induction pre with
  | nil => simp
  | cons a as ih =>
    simp only [adv_halt_free, List.all_cons, Bool.and_eq_true, Bool.not_eq_true'] at h
    obtain ⟨ha, has⟩ := h
    have hstep : subscribe_advanced_go oracle pa false (a :: (as ++ rest)) =
        (subscribe_advanced_channel oracle pa a).2 ++
          subscribe_advanced_go oracle pa (subscribe_advanced_channel oracle pa a).1
            (as ++ rest) := rfl
    rw [List.cons_append, hstep, ha, ih (by simpa [adv_halt_free] using has)]
    simp

/-- C2: in the advanced-tier phase, as soon as one attempt for one channel
raises a quota-exhaustion signal, that attempt is the last advanced
attempt of the pass — the remaining kinds of that channel and all
remaining channels are skipped (global halt).  A missing-authorization-
scope failure, by contrast, leaves the flag unchanged, so only that one
attempt is affected and the next kind is still attempted. -/
theorem c2_advanced_quota_global_halt (oracle : SubOracle) (pa : Bool)
    (pre post : List Channel) (c : Channel) (ks1 ks2 : List SubKind)
    (k : SubKind) (e : String)
    (hpre : adv_halt_free oracle pa pre = true)
    (hks : adv_kinds pa = ks1 ++ k :: ks2)
    (hks1 : ks1.all (fun x => !(kind_halts oracle c.channel_id x)) = true)
    (herr : oracle k c.channel_id = some e)
    (hq : handle_subscription_error e false = true) :
    (subscribe_advanced_events oracle pa (pre ++ c :: post) =
      (pre.map fun x => (subscribe_advanced_channel oracle pa x).2).flatten ++
        (ks1.map (fun x => (x, c.channel_id)) ++ [(k, c.channel_id)])) ∧
    (∀ e2 b, is_scope_error e2 = true → handle_subscription_error e2 b = b) ∧
    (∀ cid k0 ks e2, oracle k0 cid = some e2 →
      handle_subscription_error e2 false = false →
      List.foldl (adv_kind_step oracle cid) (false, []) (k0 :: ks) =
        List.foldl (adv_kind_step oracle cid) (false, [(k0, cid)]) ks) := by
  refine ⟨?_, ?_, ?_⟩
  · have hch : subscribe_advanced_channel oracle pa c =
        (true, ks1.map (fun x => (x, c.channel_id)) ++ [(k, c.channel_id)]) := by
      unfold subscribe_advanced_channel
      rw [hks]
      exact adv_fold_cut oracle c.channel_id ks1 k ks2 e hks1 herr hq
    unfold subscribe_advanced_events
    rw [adv_go_pre oracle pa pre (c :: post) hpre]
    have hstep : subscribe_advanced_go oracle pa false (c :: post) =
        (subscribe_advanced_channel oracle pa c).2 ++
          subscribe_advanced_go oracle pa (subscribe_advanced_channel oracle pa c).1
            post := rfl
    rw [hstep, hch]
    simp [adv_go_halted]
  · intro e2 b hscope
    unfold is_scope_error at hscope
    simp [handle_subscription_error, hscope]
  · intro cid k0 ks e2 h1 h2
    rw [List.foldl_cons, adv_kind_step_false]
    have hk : kind_halts oracle cid k0 = false := by simp [kind_halts, h1, h2]
    rw [hk]
    simp

/-- Witness for C2: three channels with credentials, the subscribe-events
attempt for the second one raises a cost-exceeded error; the pass stops
there. -/
theorem c2_witness :
    adv_halt_free c2Oracle true [⟨"1", "alice"⟩] = true ∧
    adv_kinds true = [SubKind.follow] ++ SubKind.subscribe :: [SubKind.gift, SubKind.points] ∧
    ([SubKind.follow].all (fun x => !(kind_halts c2Oracle "2" x)) = true) ∧
    c2Oracle .subscribe "2" = some "subscription cost exceeded" ∧
    handle_subscription_error "subscription cost exceeded" false = true ∧
    subscribe_advanced_events c2Oracle true
        ([⟨"1", "alice"⟩] ++ (⟨"2", "bob"⟩ : Channel) :: [⟨"3", "carol"⟩]) =
      ([(⟨"1", "alice"⟩ : Channel)].map
          fun x => (subscribe_advanced_channel c2Oracle true x).2).flatten ++
        ([SubKind.follow].map (fun x => (x, "2")) ++ [(SubKind.subscribe, "2")]) :=
  ⟨by decide, by decide, by decide, by decide, by decide,
    (c2_advanced_quota_global_halt c2Oracle true [⟨"1", "alice"⟩] [⟨"3", "carol"⟩]
      ⟨"2", "bob"⟩ [.follow] [.gift, .points] .subscribe "subscription cost exceeded"
      (by decide) (by decide) (by decide) (by decide) (by decide)).1⟩

/-- Folding further same-pair events into an aggregation dict that already
holds the pair increments its single counter. -/
theorem add_count_foldl_replicate (c u cmd : String) :
    ∀ (m k : ℕ),
      List.foldl (fun acc ev => add_count acc (ev.1, ev.2.2)) [((c, cmd), k)]
        (List.replicate m (c, u, cmd)) = [((c, cmd), k + m)] := by
  intro m
  induction m with
  | zero => intro k; simp
  | succ m ih =>
    intro k
    rw [List.replicate_succ, List.foldl_cons]
    have hstep : add_count [((c, cmd), k)] ((c, u, cmd).1, (c, u, cmd).2.2) =
        [((c, cmd), k + 1)] := by simp [add_count]
    rw [hstep, ih (k + 1)]
    have he : k + 1 + m = k + (m + 1) := by omega
    rw [he]

/-- Aggregating a batch of same-pair events yields one counter holding the
batch size. -/
theorem aggregate_counts_replicate (c u cmd : String) (n : ℕ) :
    aggregate_counts (List.replicate (n + 1) (c, u, cmd)) = [((c, cmd), n + 1)] := by
  unfold aggregate_counts
  rw [List.replicate_succ, List.foldl_cons]
  have hstep : add_count ([] : List UsageUpdate) ((c, u, cmd).1, (c, u, cmd).2.2) =
      [((c, cmd), 1)] := rfl
  rw [hstep, add_count_foldl_replicate c u cmd n 1]
  have he : 1 + n = n + 1 := by omega
  rw [he]

/-- A record call below both flush thresholds appends the event, keeps the
timer, and does not flush. -/
theorem log_command_usage_no_flush (writer : UsageWriter) (ev : UsageEvent)
    (t1 t : ℚ) (k : ℕ) (ht1 : t1 ≠ 0) (ht : t - t1 < 30) (hk : k + 1 ≤ 49) :
    log_command_usage writer t ⟨List.replicate k ev, t1⟩ ev =
      (⟨List.replicate (k + 1) ev, t1⟩, [], false) := by
  simp only [log_command_usage, if_neg ht1, Bool.or_eq_true, decide_eq_true_eq]
  rw [if_neg]
  · rw [← List.replicate_succ']
  · push_neg
    refine ⟨?_, ?_⟩
    · simp only [List.length_append, List.length_replicate, List.length_cons,
        List.length_nil]
      omega
    · linarith

/-- A run of same-pair record calls that stays below both thresholds never
flushes and accumulates the events in order with the original timer. -/
theorem run_records_no_flush (writer : UsageWriter) (ev : UsageEvent) (t1 : ℚ)
    (ht1 : t1 ≠ 0) :
    ∀ (times : List ℚ) (k : ℕ),
      times.all (fun t => decide (t - t1 < 30)) = true →
      k + times.length ≤ 49 →
      run_records writer ev times ⟨List.replicate k ev, t1⟩ =
        (⟨List.replicate (k + times.length) ev, t1⟩, false) := by
  intro times
  induction times with
  | nil => intro k _ _; simp [run_records]
  | cons t rest ih =>
    intro k hall hlen
    simp only [List.all_cons, Bool.and_eq_true, decide_eq_true_eq] at hall
    obtain ⟨ht, hrest⟩ := hall
    have hlen' : k + 1 ≤ 49 := by
      simp only [List.length_cons] at hlen
      omega
    simp only [run_records]
    rw [log_command_usage_no_flush writer ev t1 t k ht1 ht hlen']
    have hrec := ih (k + 1) (by simpa using hrest)
      (by simp only [List.length_cons] at hlen; omega)
    simp only [hrec]
    have he : k + 1 + rest.length = k + (rest.length + 1) := by omega
    simp [he, List.length_cons]

/-- C7: a run of N same-pair record calls with N below the batch-size
threshold 50 and all elapsed times below the 30-second threshold performs
no flush and leaves all N events queued behind the original timer; a
forced flush of that queue commits exactly one usage-count update,
incrementing the counter of that (channel, command) pair by N; and any
record call that satisfies either trigger condition flushes before
returning. -/
theorem c7_usage_batch_thresholds (writer : UsageWriter) (c u cmd : String)
    (t1 : ℚ) (times : List ℚ)
    (hw : writer (List.replicate (times.length + 1) (c, u, cmd)) = .ok ())
    (ht1 : t1 ≠ 0)
    (hlen : times.length < 49)
    (htime : times.all (fun t => decide (t - t1 < 30)) = true) :
    run_records writer (c, u, cmd) (t1 :: times) ⟨[], 0⟩ =
      (⟨List.replicate (times.length + 1) (c, u, cmd), t1⟩, false) ∧
    flush_usage_batch writer [] ⟨List.replicate (times.length + 1) (c, u, cmd), t1⟩ =
      (⟨[], 0⟩, [((c, cmd), times.length + 1)]) ∧
    (∀ (w : UsageWriter) (now : ℚ) (st : BatchState) (ev : UsageEvent),
      (50 ≤ st.batch.length + 1 ∨
        (30 : ℚ) ≤ now - (if st.timer = 0 then now else st.timer)) →
      (log_command_usage w now st ev).2.2 = true) := by
  refine ⟨?_, ?_, ?_⟩
  · have hfirst : log_command_usage writer t1 ⟨[], 0⟩ (c, u, cmd) =
        (⟨List.replicate 1 (c, u, cmd), t1⟩, [], false) := by
      simp only [log_command_usage, if_pos rfl, Bool.or_eq_true, decide_eq_true_eq]
      rw [if_neg]
      · simp [List.replicate_one]
      · push_neg
        refine ⟨by simp, by simp⟩
    simp only [run_records]
    rw [hfirst]
    have hrec := run_records_no_flush writer (c, u, cmd) t1 ht1 times 1 htime
      (by omega)
    simp only [hrec]
    have he : 1 + times.length = times.length + 1 := by omega
    simp [he]
  · have hne : (List.replicate (times.length + 1) ((c, u, cmd) : UsageEvent)).isEmpty
        = false := by
      simp [List.isEmpty_iff, List.replicate_succ]
    simp only [flush_usage_batch, hne, Bool.false_eq_true, if_false, hw]
    rw [aggregate_counts_replicate c u cmd times.length]
  · intro w now st ev htr
    simp only [log_command_usage, Bool.or_eq_true, decide_eq_true_eq]
    rw [if_pos]
    rcases htr with h | h
    · exact Or.inl (by simpa [List.length_append] using h)
    · exact Or.inr (by simpa using h)

/-- Witness for C7: three record calls for the same pair at times 1000,
1001, 1002, then the forced flush commits one increment-by-3. -/
theorem c7_witness :
    okWriter (List.replicate 3 ("10", "20", "dice")) = .ok () ∧
    (1000 : ℚ) ≠ 0 ∧
    ([(1001 : ℚ), 1002].length < 49) ∧
    ([(1001 : ℚ), 1002].all (fun t => decide (t - 1000 < 30)) = true) ∧
    (run_records okWriter ("10", "20", "dice") (1000 :: [1001, 1002]) ⟨[], 0⟩ =
        (⟨List.replicate 3 ("10", "20", "dice"), 1000⟩, false) ∧
      flush_usage_batch okWriter [] ⟨List.replicate 3 ("10", "20", "dice"), 1000⟩ =
        (⟨[], 0⟩, [(("10", "dice"), 3)])) := by
  have h := c7_usage_batch_thresholds okWriter "10" "20" "dice" 1000 [1001, 1002]
    rfl (by norm_num) (by norm_num)
    (by simp only [List.all_cons, List.all_nil, Bool.and_eq_true, decide_eq_true_eq]
        norm_num)
  exact ⟨rfl, by norm_num, by norm_num,
    by simp only [List.all_cons, List.all_nil, Bool.and_eq_true, decide_eq_true_eq]
       norm_num,
    h.1, h.2.1⟩

/-- C8: when the transactional write of a flush fails, the snapshot batch
is prepended back in front of the events recorded during the flush
attempt, nothing is applied, and no exception escapes (the model returns
normally); the restored events are committed by the next successful
flush.  A record call that triggers a failing flush likewise returns
normally with every event retained. -/
theorem c8_flush_failure_requeues (writer writer2 : UsageWriter)
    (st : BatchState) (during : List UsageEvent) (e : String) (ev : UsageEvent)
    (now : ℚ)
    (hne : st.batch ≠ [])
    (hfail : writer st.batch = .error e)
    (hok : writer2 (st.batch ++ during) = .ok ())
    (hfail2 : writer (st.batch ++ [ev]) = .error e)
    (htr : (30 : ℚ) ≤ now - (if st.timer = 0 then now else st.timer)) :
    flush_usage_batch writer during st = (⟨st.batch ++ during, 0⟩, []) ∧
    flush_usage_batch writer2 [] ⟨st.batch ++ during, 0⟩ =
      (⟨[], 0⟩, aggregate_counts (st.batch ++ during)) ∧
    log_command_usage writer now st ev = (⟨st.batch ++ [ev], 0⟩, [], true) := by
  have hne1 : st.batch.isEmpty = false := by
    cases h : st.batch with
    | nil => exact absurd h hne
    | cons a l => rfl
  refine ⟨?_, ?_, ?_⟩
  · simp only [flush_usage_batch, hne1, Bool.false_eq_true, if_false, hfail]
  · have hne2 : (st.batch ++ during).isEmpty = false := by
      cases h : st.batch with
      | nil => exact absurd h hne
      | cons a l => simp [h]
    simp only [flush_usage_batch, hne2, Bool.false_eq_true, if_false, hok]
  · simp only [log_command_usage, Bool.or_eq_true, decide_eq_true_eq]
    rw [if_pos (Or.inr (by simpa using htr))]
    have hne3 : (st.batch ++ [ev]).isEmpty = false := by
      cases st.batch <;> rfl
    simp only [flush_usage_batch, hne3, Bool.false_eq_true, if_false, hfail2]
    simp

/-- Witness for C8: one queued event, one event recorded during the
failing flush, and a new event arriving 31 seconds after the timer. -/
theorem c8_witness :
    (([("1", "2", "dice")] : List UsageEvent) ≠ []) ∧
    failWriter [("1", "2", "dice")] = .error "insert failed" ∧
    okWriter ([("1", "2", "dice")] ++ [("3", "4", "roll")]) = .ok () ∧
    failWriter ([("1", "2", "dice")] ++ [("5", "6", "coin")]) = .error "insert failed" ∧
    ((30 : ℚ) ≤ 1031 - (if (1000 : ℚ) = 0 then 1031 else 1000)) ∧
    (flush_usage_batch failWriter [("3", "4", "roll")] ⟨[("1", "2", "dice")], 1000⟩ =
        (⟨[("1", "2", "dice")] ++ [("3", "4", "roll")], 0⟩, []) ∧
      flush_usage_batch okWriter [] ⟨[("1", "2", "dice")] ++ [("3", "4", "roll")], 0⟩ =
        (⟨[], 0⟩, aggregate_counts ([("1", "2", "dice")] ++ [("3", "4", "roll")])) ∧
      log_command_usage failWriter 1031 ⟨[("1", "2", "dice")], 1000⟩ ("5", "6", "coin") =
        (⟨[("1", "2", "dice")] ++ [("5", "6", "coin")], 0⟩, [], true)) := by
  have htr : (30 : ℚ) ≤ 1031 - (if (1000 : ℚ) = 0 then 1031 else 1000) := by
    rw [if_neg (by norm_num : (1000 : ℚ) ≠ 0)]
    norm_num
  exact ⟨by simp, rfl, rfl, rfl, htr,
    c8_flush_failure_requeues failWriter okWriter ⟨[("1", "2", "dice")], 1000⟩
      [("3", "4", "roll")] "insert failed" ("5", "6", "coin") 1031
      (by simp) rfl rfl rfl htr⟩

end TwitchBot
